import Mathlib

/-!
Shallow embedding of `synthetic_generator.py` (Synthetic IoT Telemetry
Generator for Mining Site Monitoring).

Device identifiers are modelled as `List Char`; Python's `random.uniform`,
`random.random` and `random.choice` are modelled by an explicit stream of
unit draws `s : Nat → ℚ` consumed left to right with an index threaded
through every call (one draw per `random()`/`uniform`/`choice` call, in the
exact order the Python code makes them).  Machine floats are modelled by
exact rationals.  Wall-clock timestamps and `time.sleep` durations are not
modelled; no claim depends on them.
-/

namespace Mining

/-- The decimal digit characters used by Python's `f"{i:03d}"` formatting. -/
def digitChar : Nat → Char
  | 0 => '0' | 1 => '1' | 2 => '2' | 3 => '3' | 4 => '4'
  | 5 => '5' | 6 => '6' | 7 => '7' | 8 => '8' | _ => '9'

/-- Numeric value of a digit character (inverse of `digitChar` on digits). -/
def charVal (c : Char) : Nat := c.toNat - 48

/-- A character is a decimal digit. -/
def isDig (c : Char) : Prop := 48 ≤ c.toNat ∧ c.toNat ≤ 57

instance (c : Char) : Decidable (isDig c) := by unfold isDig; infer_instance

/-- Little-endian decimal digit characters of `n`, with explicit fuel so the
definition is structural (fuel `n + 1` always suffices). -/
def natDigitsAux : Nat → Nat → List Char
  | 0, _ => []
  | _ + 1, 0 => []
  | fuel + 1, n + 1 => digitChar ((n + 1) % 10) :: natDigitsAux fuel ((n + 1) / 10)

/-- Big-endian decimal digit characters of `n` (empty for `n = 0`). -/
def natChars (n : Nat) : List Char := (natDigitsAux (n + 1) n).reverse

/-- Python `f"{i:03d}"`: decimal rendering of `i` left-padded with `'0'` to
width 3. -/
def padIndex (i : Nat) : List Char :=
  List.replicate (3 - (natChars i).length) '0' ++ natChars i

/-- Value of a little-endian digit-character list. -/
def numVal : List Char → Nat
  | [] => 0
  | c :: cs => charVal c + 10 * numVal cs

/-- Device-id rendering: Python `f"{token}_{i:03d}"`. -/
def deviceId (token : String) (i : Nat) : List Char :=
  token.toList ++ '_' :: padIndex i

/-- Python list slicing `l[:n]` for an `int` bound `n` (a negative bound
drops `-n` elements from the end). -/
def pySlice (n : Int) (l : List α) : List α :=
  if 0 ≤ n then l.take n.toNat else l.take (l.length - (-n).toNat)

/-- One category of the device registry, mirroring
`[f"{typ}_{i:03d}" for typ in tokens for i in range(count // divisor + 1)][:count]`
(Python `//` is floor division and `range` of a non-positive bound is
empty). -/
def mkCategory (tokens : List String) (divisor : Int) (count : Int) : List (List Char) :=
  pySlice count
    (tokens.flatMap fun t => (List.range (count.fdiv divisor + 1).toNat).map (deviceId t))

/-- Line 76: the vehicle ids. -/
def vehiclesList (count : Int) : List (List Char) :=
  mkCategory ["haul_truck", "loader", "excavator"] 3 count

/-- Line 77: the fixed-asset ids. -/
def fixedAssetsList (count : Int) : List (List Char) :=
  mkCategory ["fan", "vent_system", "conveyor"] 3 count

/-- Line 78: the environmental-sensor ids (the `env_` marker is part of
every token). -/
def envSensorsList (count : Int) : List (List Char) :=
  mkCategory ["env_co_co2", "env_methane", "env_dust", "env_temp_hum", "env_ground_stab"]
    5 count

/-- Line 79: the personnel ids (`range` only, no slice in the source). -/
def personnelList (count : Int) : List (List Char) :=
  (List.range count.toNat).map (deviceId "personnel")

/-- The configuration record consumed by the script (after JSON loading). -/
structure Config where
  num_vehicles : Int
  num_fixed_assets : Int
  num_env_sensors : Int
  num_personnel : Int
  frequency : ℚ
  variance : ℚ
  seed : Int
  mode : String
  broker : String
  port : Int
  aws_endpoint : Option String
  cert : Option String
  keyPath : Option String
  ca : Option String

/-- The `default_config` dictionary of `load_config`. -/
def defaultConfig : Config :=
  { num_vehicles := 5, num_fixed_assets := 10, num_env_sensors := 20,
    num_personnel := 15, frequency := 10, variance := 1/10, seed := 42,
    mode := "normal", broker := "localhost", port := 1883,
    aws_endpoint := none, cert := none, keyPath := none, ca := none }

/-- Line 82: `all_devices = vehicles + fixed_assets + env_sensors + personnel`. -/
def allDevices (cfg : Config) : List (List Char) :=
  vehiclesList cfg.num_vehicles ++ fixedAssetsList cfg.num_fixed_assets ++
    envSensorsList cfg.num_env_sensors ++ personnelList cfg.num_personnel

/-- Python truthiness of an optional string config entry (`None` and the
empty string are falsy). -/
def pyTruthy : Option String → Bool
  | none => false
  | some s => !(s = "")

/-- Errors raised during script startup (both are `ValueError` in Python;
they are distinguished here by the raise site). -/
inductive StartupError where
  | invalidMode
  | missingTlsMaterial
  deriving DecidableEq, Repr

/-- Lines 49–50: `if config['mode'] not in ['normal','fault','intermittent']:
raise ValueError(...)`. -/
def checkMode (m : String) : Except StartupError Unit :=
  if m = "normal" ∨ m = "fault" ∨ m = "intermittent" then .ok ()
  else .error .invalidMode

/-- Lines 58–68: TLS/broker selection.  Returns the `(endpoint, port)` pair
actually used for the connection. -/
def checkTls (cfg : Config) : Except StartupError (String × Int) :=
  if cfg.broker = "aws" ∧ pyTruthy cfg.aws_endpoint then
    if pyTruthy cfg.cert ∧ pyTruthy cfg.keyPath ∧ pyTruthy cfg.ca then
      .ok (cfg.aws_endpoint.getD "", 8883)
    else .error .missingTlsMaterial
  else .ok (cfg.broker, cfg.port)

/-- Script startup in source order: mode validation (line 49), TLS/broker
selection (lines 58–68), then device-id generation (lines 76–82).  On
success it returns the endpoint, port and device list from which the
per-device publish loops are started; device loops are only started after
an `.ok` result. -/
def startup (cfg : Config) : Except StartupError (String × Int × List (List Char)) := do
  let _ ← checkMode cfg.mode
  let ep ← checkTls cfg
  .ok (ep.1, ep.2, allDevices cfg)

/-- The four device categories. -/
inductive DeviceType where
  | vehicle
  | fixed
  | env
  | personnel
  deriving DecidableEq, Repr

/-- Lines 117–125: `get_device_type`, substring dispatch on the id.  The
Python function has no `else` branch and implicitly returns `None` when no
token matches. -/
def get_device_type (id : List Char) : Option DeviceType :=
  if "truck".toList <:+: id ∨ "loader".toList <:+: id ∨ "excavator".toList <:+: id then
    some .vehicle
  else if "fan".toList <:+: id ∨ "vent".toList <:+: id ∨ "conveyor".toList <:+: id then
    some .fixed
  else if "env".toList <:+: id then some .env
  else if "personnel".toList <:+: id then some .personnel
  else none

/-- A generated metric value: Python numbers, strings, booleans, and nested
dicts of named numbers. -/
inductive MValue where
  | num (q : ℚ)
  | str (s : String)
  | bool (b : Bool)
  | group (g : List (String × ℚ))
  deriving DecidableEq, Repr

/-- A generation rule from the `metric_ranges` table, mirroring the runtime
shape dispatch of `simulate_data`: a dict of pairs, a list of strings, a
list of booleans, or a numeric pair. -/
inductive Rule where
  | range (lo hi : ℚ)
  | group (fields : List (String × ℚ × ℚ))
  | cat (options : List String)
  | bools (options : List Bool)
  deriving DecidableEq, Repr

/-- Python `random.uniform(a, b) = a + (b - a) * random()` at unit draw `u`. -/
def pyUniform (a b u : ℚ) : ℚ := a + (b - a) * u

/-- Python `random.choice(l)` modelled as indexing by `⌊u * len(l)⌋` at unit
draw `u` (one draw consumed; for `u ∈ [0, 1)` the index is in range). -/
def pyChoice (l : List α) (d : α) (u : ℚ) : α :=
  l.getD (Int.toNat ⌊u * (l.length : ℚ)⌋) d

/-- One scalar draw of `simulate_data`:
`random.uniform(lo, hi) * (1 + random.uniform(-variance, variance))`,
consuming two unit draws. -/
def evalScalar (variance : ℚ) (s : Nat → ℚ) (lo hi : ℚ) (k : Nat) : ℚ × Nat :=
  (pyUniform lo hi (s k) * (1 + pyUniform (-variance) variance (s (k + 1))), k + 2)

/-- The dict comprehension of `simulate_data` for nested metrics: every
sub-field is drawn and perturbed independently, in field order. -/
def evalGroup (variance : ℚ) (s : Nat → ℚ) :
    List (String × ℚ × ℚ) → Nat → List (String × ℚ) × Nat
  | [], k => ([], k)
  | (n, lo, hi) :: rest, k =>
    let v := evalScalar variance s lo hi k
    let vs := evalGroup variance s rest v.2
    ((n, v.1) :: vs.1, vs.2)

/-- Evaluation of one generation rule (lines 136–144): numeric draws get the
multiplicative jitter, categorical and boolean draws are a bare
`random.choice`. -/
def evalRule (variance : ℚ) (s : Nat → ℚ) : Rule → Nat → MValue × Nat
  | .range lo hi, k =>
    let v := evalScalar variance s lo hi k
    (.num v.1, v.2)
  | .group fs, k =>
    let g := evalGroup variance s fs k
    (.group g.1, g.2)
  | .cat opts, k => (.str (pyChoice opts "" (s k)), k + 1)
  | .bools opts, k => (.bool (pyChoice opts false (s k)), k + 1)

/-- The `for key, val in ranges.items()` loop of `simulate_data`, in table
order. -/
def evalMetrics (variance : ℚ) (s : Nat → ℚ) :
    List (String × Rule) → Nat → List (String × MValue) × Nat
  | [], k => ([], k)
  | (n, r) :: rest, k =>
    let v := evalRule variance s r k
    let vs := evalMetrics variance s rest v.2
    ((n, v.1) :: vs.1, vs.2)

/-- `metric_ranges['vehicle']` (insertion order preserved, as in a Python
dict). -/
def vehicleMetrics : List (String × Rule) :=
  [("gps", .group [("lat", 37.7, 37.8), ("lon", -122.5, -122.4)]),
   ("speed", .range 0 50),
   ("engine_temp", .range 60 90),
   ("vibration", .range 0.5 2.0),
   ("fuel_level", .range 20 100)]

/-- `metric_ranges['fixed']`. -/
def fixedMetrics : List (String × Rule) :=
  [("vibration", .range 0.1 1.0),
   ("motor_temp", .range 40 70),
   ("operational_status", .cat ["running", "idle", "stopped"]),
   ("airflow_rate", .range 100 500),
   ("power_consumption", .range 500 2000)]

/-- `metric_ranges['env']`. -/
def envMetrics : List (String × Rule) :=
  [("co_co2", .range 0 50),
   ("methane", .range 0 5),
   ("dust", .range 0 100),
   ("temp_hum", .group [("temp", 10, 30), ("hum", 40, 80)]),
   ("ground_vib", .range 0 1)]

/-- `metric_ranges['personnel']`. -/
def personnelMetrics : List (String × Rule) :=
  [("co_level", .range 0 50),
   ("proximity_alert", .bools [false, true]),
   ("heart_rate", .range 60 100),
   ("location", .group [("x", 0, 1000), ("y", 0, 1000)]),
   ("fall_detection", .bools [false, true])]

/-- The `metric_ranges` table keyed by device type. -/
def metricRanges : DeviceType → List (String × Rule)
  | .vehicle => vehicleMetrics
  | .fixed => fixedMetrics
  | .env => envMetrics
  | .personnel => personnelMetrics

/-- Association lookup in a metrics dict. -/
def getVal (m : List (String × MValue)) (key : String) : Option MValue :=
  match m with
  | [] => none
  | (n, v) :: rest => if n = key then some v else getVal rest key

/-- Python `metrics[key] += d` for a numeric entry (the key always holds a
numeric value at the two call sites). -/
def addNum (v : MValue) (d : ℚ) : MValue :=
  match v with
  | .num q => .num (q + d)
  | v => v

/-- In-place `+=` on the named dict entry. -/
def bumpNum (m : List (String × MValue)) (key : String) (d : ℚ) :
    List (String × MValue) :=
  m.map fun p => if p.1 = key then (p.1, addNum p.2 d) else p

/-- Python dict assignment `metrics[key] = v`: replace the entry when the
key is present, append it otherwise. -/
def setVal (m : List (String × MValue)) (key : String) (v : MValue) :
    List (String × MValue) :=
  if m.any (fun p => p.1 = key) then
    m.map fun p => if p.1 = key then (p.1, v) else p
  else m ++ [(key, v)]

/-- The fault mutation of lines 147–159, keyed by device type. -/
def applyFault (t : DeviceType) (m : List (String × MValue)) :
    List (String × MValue) :=
  match t with
  | .vehicle => bumpNum m "engine_temp" 50
  | .fixed => setVal m "operational_status" (.str "jammed")
  | .env => bumpNum m "methane" 10
  | .personnel => setVal m "fall_detection" (.bool true)

/-- The status string set together with each fault mutation. -/
def faultStatus : DeviceType → String
  | .vehicle => "fault_overheat"
  | .fixed => "fault_jam"
  | .env => "fault_gas"
  | .personnel => "fault_fall"

/-- The payload assembled by `simulate_data` (the wall-clock timestamp field
is not modelled). -/
structure TelemetryRecord where
  device_id : List Char
  typ : DeviceType
  metrics : List (String × MValue)
  status : String
  deriving DecidableEq, Repr

/-- Lines 128–170: `simulate_data(device_id, mode)`.  The result is `none`
when `get_device_type` returns `None` (Python would then raise `KeyError`
on `metric_ranges[None]`).  The fault draw `random.random()` is consumed
only in fault mode, matching the short-circuit
`mode == 'fault' and random.random() < 0.2`. -/
def simulate_data (id : List Char) (mode : String) (variance : ℚ)
    (s : Nat → ℚ) (k : Nat) : Option (TelemetryRecord × Nat) :=
  match get_device_type id with
  | none => none
  | some t =>
    let em := evalMetrics variance s (metricRanges t) k
    if mode = "fault" then
      if s em.2 < 0.2 then
        some ({ device_id := id, typ := t, metrics := applyFault t em.1,
                status := faultStatus t }, em.2 + 1)
      else
        some ({ device_id := id, typ := t, metrics := em.1,
                status := "normal" }, em.2 + 1)
    else
      some ({ device_id := id, typ := t, metrics := em.1,
              status := "normal" }, em.2)

/-- Observable state of one device's `publish_loop`: the outage buffer, the
sequence of records handed to `client.publish` so far (in call order), and
the sequence of records generated so far (in generation order). -/
structure LoopState (α : Type) where
  buffer : List α
  published : List α
  generated : List α
  deriving DecidableEq, Repr

/-- The initial loop state: `buffer = []` before the `while True`. -/
def initLoop : LoopState α := { buffer := [], published := [], generated := [] }

/-- One iteration of `publish_loop` (lines 173–188).  `inp.1` is the record
produced by `simulate_data` this tick and `inp.2` the unit draw behind
`random.random() < 0.3`.  In the outage branch the record is appended to
the buffer, the outage wait elapses (not modelled), every buffered record
is published in buffer order, and the buffer is reset to `[]`; otherwise
the record is published immediately. -/
def publish_step (mode : String) (st : LoopState α) (inp : α × ℚ) : LoopState α :=
  let gen := st.generated ++ [inp.1]
  if mode = "intermittent" ∧ inp.2 < 0.3 then
    let buf := st.buffer ++ [inp.1]
    { buffer := [], published := st.published ++ buf, generated := gen }
  else
    { buffer := st.buffer, published := st.published ++ [inp.1], generated := gen }

/-- The state of `publish_loop` after a finite sequence of iterations. -/
def publish_run (mode : String) (inputs : List (α × ℚ)) : LoopState α :=
  inputs.foldl (publish_step mode) initLoop

/-- Decimal value of a big-endian digit-character list (left inverse of
`padIndex`). -/
def unpadVal (cs : List Char) : Nat := numVal cs.reverse

/-- Facts about the `metric_ranges` table needed by the boundary property:
ranges are ordered and option lists nonempty. -/
def RuleWF : Rule → Prop
  | .range lo hi => lo ≤ hi
  | .group fs => ∀ f ∈ fs, f.2.1 ≤ f.2.2
  | .cat opts => opts ≠ []
  | .bools opts => opts ≠ []

/-- Conformance of a generated value to its rule's declared range or option
set. -/
def Conforms : Rule → MValue → Prop
  | .range lo hi, .num q => lo ≤ q ∧ q ≤ hi
  | .group fs, .group g =>
    ∀ p ∈ g, ∃ lo hi, (p.1, lo, hi) ∈ fs ∧ lo ≤ p.2 ∧ p.2 ≤ hi
  | .cat opts, .str o => o ∈ opts
  | .bools opts, .bool b => b ∈ opts
  | _, _ => False

/-- First-match rule lookup in a metric table. -/
def lookupRule (rules : List (String × Rule)) (key : String) : Option Rule :=
  match rules with
  | [] => none
  | (n, r) :: rest => if n = key then some r else lookupRule rest key

theorem charVal_digitChar {d : Nat} (h : d < 10) : charVal (digitChar d) = d := by
  interval_cases d <;> rfl

theorem isDig_digitChar {d : Nat} (h : d < 10) : isDig (digitChar d) := by
  interval_cases d <;> decide

theorem isDig_of_mem_natDigitsAux :
    ∀ fuel n {c : Char}, c ∈ natDigitsAux fuel n → isDig c := by
  intro fuel
  induction fuel with
  | zero => intro n c hc; simp [natDigitsAux] at hc
  | succ f ih =>
    intro n c hc
    match n with
    | 0 => simp [natDigitsAux] at hc
    | n + 1 =>
      simp only [natDigitsAux, List.mem_cons] at hc
      rcases hc with h | h
      · subst h; exact isDig_digitChar (Nat.mod_lt _ (by omega))
      · exact ih _ h

theorem isDig_of_mem_padIndex {i : Nat} {c : Char} (hc : c ∈ padIndex i) : isDig c := by
  unfold padIndex natChars at hc
  rcases List.mem_append.mp hc with h | h
  · rw [List.eq_of_mem_replicate h]; decide
  · exact isDig_of_mem_natDigitsAux _ _ (List.mem_reverse.mp h)

theorem numVal_append (xs ys : List Char) :
    numVal (xs ++ ys) = numVal xs + 10 ^ xs.length * numVal ys := by
  induction xs with
  | nil => simp [numVal]
  | cons c xs ih =>
    simp only [List.cons_append, List.append_eq, numVal, ih, List.length_cons, pow_succ]
    ring

theorem numVal_replicate_zero (m : Nat) : numVal (List.replicate m '0') = 0 := by
  induction m with
  | zero => rfl
  | succ k ih => simpa [List.replicate_succ, numVal, charVal] using ih

theorem numVal_natDigitsAux : ∀ fuel n, n ≤ fuel → numVal (natDigitsAux fuel n) = n := by
  intro fuel
  induction fuel with
  | zero => intro n h; interval_cases n; rfl
  | succ f ih =>
    intro n h
    match n with
    | 0 => rfl
    | n + 1 =>
      have hlt : (n + 1) / 10 ≤ f := by
        have := Nat.div_lt_self (Nat.succ_pos n) (by omega : 1 < 10)
        omega
      show charVal (digitChar ((n + 1) % 10)) + 10 * numVal (natDigitsAux f ((n + 1) / 10)) = n + 1
      rw [charVal_digitChar (Nat.mod_lt _ (by omega)), ih _ hlt]
      omega

theorem unpadVal_padIndex (i : Nat) : unpadVal (padIndex i) = i := by
  unfold unpadVal padIndex natChars
  rw [List.reverse_append, List.reverse_reverse, List.reverse_replicate, numVal_append,
    numVal_replicate_zero, numVal_natDigitsAux (i + 1) i (Nat.le_succ i)]
  ring

theorem padIndex_injective : Function.Injective padIndex := by
  intro i j h
  have := congrArg unpadVal h
  rwa [unpadVal_padIndex, unpadVal_padIndex] at this

/-- A digit-free nonempty pattern that occurs inside `pre ++ suf` with `suf`
all digits must occur inside `pre`. -/
theorem infix_of_infix_append {p pre suf : List Char} (hne : p ≠ [])
    (hp : ∀ c ∈ p, ¬ isDig c) (hs : ∀ c ∈ suf, isDig c)
    (h : p <:+: pre ++ suf) : p <:+: pre := by
  obtain ⟨s, t, heq⟩ := h
  rcases List.append_eq_append_iff.mp (by simpa using heq) with ⟨a', ha1, ha2⟩ | ⟨c', hc1, hc2⟩
  · rcases List.append_eq_append_iff.mp ha2 with ⟨b', hb1, hb2⟩ | ⟨d', hd1, hd2⟩
    · exact ⟨s, b', by rw [ha1, hb1, List.append_assoc]⟩
    · match d', hd2 with
      | [], hd2 =>
        refine ⟨s, [], ?_⟩
        simp only [List.append_nil] at hd1 ⊢
        rw [ha1, hd1]
      | e :: d'', hd2 =>
        exfalso
        refine hp e (by simp [hd1]) (hs e ?_)
        rw [hd2]; simp
  · exfalso
    obtain ⟨hd, p', rfl⟩ := List.exists_cons_of_ne_nil hne
    refine hp hd (by simp) (hs hd ?_)
    rw [hc2]; simp


theorem infix_append_right {p pre : List Char} (suf : List Char)
    (h : p <:+: pre) : p <:+: pre ++ suf := by
  obtain ⟨s, t, heq⟩ := h
  exact ⟨s, t ++ suf, by rw [← heq]; simp [List.append_assoc]⟩

theorem deviceId_eq (t : String) (i : Nat) :
    deviceId t i = (t.toList ++ ['_']) ++ padIndex i := by
  simp [deviceId]

/-- A digit-free token that does not occur in `token ++ "_"` does not occur
in any rendered device id built from `token`. -/
theorem not_token_occurs {pat : List Char} {t : String} (i : Nat) (hne : pat ≠ [])
    (hp : ∀ c ∈ pat, ¬ isDig c) (hpre : ¬ pat <:+: t.toList ++ ['_']) :
    ¬ pat <:+: deviceId t i := by
  rw [deviceId_eq]
  intro h
  exact hpre (infix_of_infix_append hne hp (fun c hc => isDig_of_mem_padIndex hc) h)

theorem token_occurs {pat : List Char} {t : String} (i : Nat)
    (h : pat <:+: t.toList ++ ['_']) : pat <:+: deviceId t i := by
  rw [deviceId_eq]
  exact infix_append_right _ h

theorem no_vehicle_tokens {t : String} (i : Nat)
    (h1 : ¬ "truck".toList <:+: t.toList ++ ['_'])
    (h2 : ¬ "loader".toList <:+: t.toList ++ ['_'])
    (h3 : ¬ "excavator".toList <:+: t.toList ++ ['_']) :
    ¬("truck".toList <:+: deviceId t i ∨ "loader".toList <:+: deviceId t i ∨
      "excavator".toList <:+: deviceId t i) := by
  rintro (h | h | h)
  · exact not_token_occurs i (by decide) (by decide) h1 h
  · exact not_token_occurs i (by decide) (by decide) h2 h
  · exact not_token_occurs i (by decide) (by decide) h3 h

theorem no_fixed_tokens {t : String} (i : Nat)
    (h1 : ¬ "fan".toList <:+: t.toList ++ ['_'])
    (h2 : ¬ "vent".toList <:+: t.toList ++ ['_'])
    (h3 : ¬ "conveyor".toList <:+: t.toList ++ ['_']) :
    ¬("fan".toList <:+: deviceId t i ∨ "vent".toList <:+: deviceId t i ∨
      "conveyor".toList <:+: deviceId t i) := by
  rintro (h | h | h)
  · exact not_token_occurs i (by decide) (by decide) h1 h
  · exact not_token_occurs i (by decide) (by decide) h2 h
  · exact not_token_occurs i (by decide) (by decide) h3 h

theorem gdt_haul_truck (i : Nat) :
    get_device_type (deviceId "haul_truck" i) = some .vehicle := by
  unfold get_device_type
  rw [if_pos (Or.inl (token_occurs i (by decide)))]

theorem gdt_loader (i : Nat) :
    get_device_type (deviceId "loader" i) = some .vehicle := by
  unfold get_device_type
  rw [if_pos (Or.inr (Or.inl (token_occurs i (by decide))))]

theorem gdt_excavator (i : Nat) :
    get_device_type (deviceId "excavator" i) = some .vehicle := by
  unfold get_device_type
  rw [if_pos (Or.inr (Or.inr (token_occurs i (by decide))))]

theorem gdt_fan (i : Nat) :
    get_device_type (deviceId "fan" i) = some .fixed := by
  unfold get_device_type
  rw [if_neg (no_vehicle_tokens i (by decide) (by decide) (by decide)),
    if_pos (Or.inl (token_occurs i (by decide)))]

theorem gdt_vent_system (i : Nat) :
    get_device_type (deviceId "vent_system" i) = some .fixed := by
  unfold get_device_type
  rw [if_neg (no_vehicle_tokens i (by decide) (by decide) (by decide)),
    if_pos (Or.inr (Or.inl (token_occurs i (by decide))))]

theorem gdt_conveyor (i : Nat) :
    get_device_type (deviceId "conveyor" i) = some .fixed := by
  unfold get_device_type
  rw [if_neg (no_vehicle_tokens i (by decide) (by decide) (by decide)),
    if_pos (Or.inr (Or.inr (token_occurs i (by decide))))]

theorem gdt_env_token {t : String} (i : Nat)
    (h1 : ¬("truck".toList <:+: deviceId t i ∨ "loader".toList <:+: deviceId t i ∨
      "excavator".toList <:+: deviceId t i))
    (h2 : ¬("fan".toList <:+: deviceId t i ∨ "vent".toList <:+: deviceId t i ∨
      "conveyor".toList <:+: deviceId t i))
    (h3 : "env".toList <:+: deviceId t i) :
    get_device_type (deviceId t i) = some .env := by
  unfold get_device_type
  rw [if_neg h1, if_neg h2, if_pos h3]

theorem gdt_env_co_co2 (i : Nat) :
    get_device_type (deviceId "env_co_co2" i) = some .env :=
  gdt_env_token i (no_vehicle_tokens i (by decide) (by decide) (by decide))
    (no_fixed_tokens i (by decide) (by decide) (by decide))
    (token_occurs i (by decide))

theorem gdt_env_methane (i : Nat) :
    get_device_type (deviceId "env_methane" i) = some .env :=
  gdt_env_token i (no_vehicle_tokens i (by decide) (by decide) (by decide))
    (no_fixed_tokens i (by decide) (by decide) (by decide))
    (token_occurs i (by decide))

theorem gdt_env_dust (i : Nat) :
    get_device_type (deviceId "env_dust" i) = some .env :=
  gdt_env_token i (no_vehicle_tokens i (by decide) (by decide) (by decide))
    (no_fixed_tokens i (by decide) (by decide) (by decide))
    (token_occurs i (by decide))

theorem gdt_env_temp_hum (i : Nat) :
    get_device_type (deviceId "env_temp_hum" i) = some .env :=
  gdt_env_token i (no_vehicle_tokens i (by decide) (by decide) (by decide))
    (no_fixed_tokens i (by decide) (by decide) (by decide))
    (token_occurs i (by decide))

theorem gdt_env_ground_stab (i : Nat) :
    get_device_type (deviceId "env_ground_stab" i) = some .env :=
  gdt_env_token i (no_vehicle_tokens i (by decide) (by decide) (by decide))
    (no_fixed_tokens i (by decide) (by decide) (by decide))
    (token_occurs i (by decide))

theorem gdt_personnel (i : Nat) :
    get_device_type (deviceId "personnel" i) = some .personnel := by
  unfold get_device_type
  rw [if_neg (no_vehicle_tokens i (by decide) (by decide) (by decide)),
    if_neg (no_fixed_tokens i (by decide) (by decide) (by decide)),
    if_neg (not_token_occurs i (by decide) (by decide) (by decide)),
    if_pos (token_occurs i (by decide))]

/-- Every id of a generated category is some token of that category rendered
at some index. -/
theorem mem_mkCategory {id : List Char} {tokens : List String} {d c : Int}
    (h : id ∈ mkCategory tokens d c) : ∃ t ∈ tokens, ∃ i, id = deviceId t i := by
  unfold mkCategory pySlice at h
  split at h <;>
  · have h' := List.mem_of_mem_take h
    obtain ⟨t, ht, h''⟩ := List.mem_flatMap.mp h'
    obtain ⟨i, _, hi⟩ := List.mem_map.mp h''
    exact ⟨t, ht, i, hi.symm⟩

theorem gdt_of_mem_vehicles {c : Int} {id : List Char} (h : id ∈ vehiclesList c) :
    get_device_type id = some .vehicle := by
  obtain ⟨t, ht, i, rfl⟩ := mem_mkCategory h
  fin_cases ht
  · exact gdt_haul_truck i
  · exact gdt_loader i
  · exact gdt_excavator i

theorem gdt_of_mem_fixed {c : Int} {id : List Char} (h : id ∈ fixedAssetsList c) :
    get_device_type id = some .fixed := by
  obtain ⟨t, ht, i, rfl⟩ := mem_mkCategory h
  fin_cases ht
  · exact gdt_fan i
  · exact gdt_vent_system i
  · exact gdt_conveyor i

theorem gdt_of_mem_env {c : Int} {id : List Char} (h : id ∈ envSensorsList c) :
    get_device_type id = some .env := by
  obtain ⟨t, ht, i, rfl⟩ := mem_mkCategory h
  fin_cases ht
  · exact gdt_env_co_co2 i
  · exact gdt_env_methane i
  · exact gdt_env_dust i
  · exact gdt_env_temp_hum i
  · exact gdt_env_ground_stab i

theorem gdt_of_mem_personnel {c : Int} {id : List Char} (h : id ∈ personnelList c) :
    get_device_type id = some .personnel := by
  obtain ⟨i, _, rfl⟩ := List.mem_map.mp h
  exact gdt_personnel i

theorem fdiv_succ_toNat_eq_zero {c : Int} (h : c < 0) : (c.fdiv 3 + 1).toNat = 0 ∧
    (c.fdiv 5 + 1).toNat = 0 := by
  have h3 : c.fdiv 3 < 0 := Int.fdiv_neg' h (by omega)
  have h5 : c.fdiv 5 < 0 := Int.fdiv_neg' h (by omega)
  omega

theorem mkCategory_neg {tokens : List String} {d c : Int} (h : (c.fdiv d + 1).toNat = 0) :
    mkCategory tokens d c = [] := by
  have hnil : tokens.flatMap (fun t => ([] : List (List Char))) = [] := by
    induction tokens <;> simp_all
  unfold mkCategory pySlice
  rw [h]
  simp only [List.range_zero, List.map_nil, hnil, List.take_nil]
  split <;> rfl

/-- C9: mode validation.  An invalid mode makes `startup` fail with the
mode `ValueError` (before TLS checking and device generation); a valid mode
passes the check. -/
theorem claim_C9 (cfg : Config) :
    (cfg.mode ∉ ["normal", "fault", "intermittent"] →
      startup cfg = .error .invalidMode) ∧
    (cfg.mode ∈ ["normal", "fault", "intermittent"] → checkMode cfg.mode = .ok ()) := by
  constructor
  · intro h
    have hm : ¬(cfg.mode = "normal" ∨ cfg.mode = "fault" ∨ cfg.mode = "intermittent") := by
      simpa using h
    have hcm : checkMode cfg.mode = .error .invalidMode := by
      simp [checkMode, hm]
    unfold startup
    rw [hcm]
    rfl
  · intro h
    have hm : cfg.mode = "normal" ∨ cfg.mode = "fault" ∨ cfg.mode = "intermittent" := by
      simpa using h
    simp [checkMode, hm]

/-- Witness for C9 at the concrete mode string `"chaos"` (invalid) and
`"fault"` (valid). -/
theorem claim_C9_witness :
    startup { defaultConfig with mode := "chaos" } = .error .invalidMode ∧
    checkMode ({ defaultConfig with mode := "fault" } : Config).mode = .ok () :=
  ⟨(claim_C9 { defaultConfig with mode := "chaos" }).1 (by decide),
   (claim_C9 { defaultConfig with mode := "fault" }).2 (by decide)⟩

/-- Counterexample to C5 as stated: `aws_endpoint` is set and none of
`cert`, `key`, `ca` are, yet startup succeeds, because the source guards
the TLS check behind `config['broker'] == 'aws'` and the default broker is
`localhost`. -/
theorem claim_C5_counterexample :
    (({ defaultConfig with aws_endpoint := some "x.iot.amazonaws.com" } : Config).aws_endpoint ≠
      none) ∧
    ({ defaultConfig with aws_endpoint := some "x.iot.amazonaws.com" } : Config).cert = none ∧
    startup { defaultConfig with aws_endpoint := some "x.iot.amazonaws.com" } =
      .ok ("localhost", 1883,
        allDevices { defaultConfig with aws_endpoint := some "x.iot.amazonaws.com" }) :=
  ⟨by decide, rfl, rfl⟩

/-- C5 amended: the TLS-material requirement applies exactly when
`broker == "aws"` and `aws_endpoint` is truthy — then `cert`, `key` and
`ca` are all required, else startup fails (given a valid mode); when the
broker is not `"aws"`, a set `aws_endpoint` triggers no TLS validation and
startup succeeds with the local broker settings. -/
theorem claim_C5 (cfg : Config)
    (hmode : cfg.mode = "normal" ∨ cfg.mode = "fault" ∨ cfg.mode = "intermittent") :
    (cfg.broker = "aws" → pyTruthy cfg.aws_endpoint = true →
      ¬(pyTruthy cfg.cert = true ∧ pyTruthy cfg.keyPath = true ∧ pyTruthy cfg.ca = true) →
      startup cfg = .error .missingTlsMaterial) ∧
    (cfg.broker = "aws" → pyTruthy cfg.aws_endpoint = true →
      (pyTruthy cfg.cert = true ∧ pyTruthy cfg.keyPath = true ∧ pyTruthy cfg.ca = true) →
      startup cfg = .ok (cfg.aws_endpoint.getD "", 8883, allDevices cfg)) ∧
    (cfg.broker ≠ "aws" →
      startup cfg = .ok (cfg.broker, cfg.port, allDevices cfg)) := by
  have hcm : checkMode cfg.mode = .ok () := by simp [checkMode, hmode]
  refine ⟨fun hb he hc => ?_, fun hb he hc => ?_, fun hb => ?_⟩
  · have hct : checkTls cfg = .error .missingTlsMaterial := by
      unfold checkTls
      rw [if_pos ⟨hb, he⟩, if_neg hc]
    unfold startup
    rw [hcm, hct]
    rfl
  · have hct : checkTls cfg = .ok (cfg.aws_endpoint.getD "", 8883) := by
      unfold checkTls
      rw [if_pos ⟨hb, he⟩, if_pos hc]
    unfold startup
    rw [hcm, hct]
    rfl
  · have hct : checkTls cfg = .ok (cfg.broker, cfg.port) := by
      unfold checkTls
      rw [if_neg]
      rintro ⟨hb2, -⟩
      exact hb hb2
    unfold startup
    rw [hcm, hct]
    rfl

/-- Witness for C5 (amended) at a concrete configuration: broker `"aws"`,
endpoint set, no TLS material. -/
theorem claim_C5_witness :
    startup { defaultConfig with broker := "aws", aws_endpoint := some "x.iot.amazonaws.com" } =
      .error .missingTlsMaterial :=
  (claim_C5 { defaultConfig with broker := "aws", aws_endpoint := some "x.iot.amazonaws.com" }
    (by decide)).1 (by decide) (by decide) (by decide)

/-- Counterexample to C4 as stated: a negative device count does not fail;
the category list is simply empty and startup succeeds and returns a
device list. -/
theorem claim_C4_counterexample :
    vehiclesList (-1) = [] ∧
    startup { defaultConfig with num_vehicles := -1 } =
      .ok ("localhost", 1883, allDevices { defaultConfig with num_vehicles := -1 }) :=
  ⟨rfl, rfl⟩

/-- C4 amended: a negative requested count is not validated anywhere in the
source — `count // k + 1` is then non-positive, `range` of it is empty, and
the affected category is generated as the empty list (no error is raised). -/
theorem claim_C4 (c : Int) (h : c < 0) :
    vehiclesList c = [] ∧ fixedAssetsList c = [] ∧ envSensorsList c = [] ∧
    personnelList c = [] := by
  obtain ⟨h3, h5⟩ := fdiv_succ_toNat_eq_zero h
  refine ⟨mkCategory_neg h3, mkCategory_neg h3, mkCategory_neg h5, ?_⟩
  unfold personnelList
  rw [Int.toNat_of_nonpos (by omega)]
  rfl

/-- Witness for C4 (amended) at the concrete count `-1`. -/
theorem claim_C4_witness :
    vehiclesList (-1) = [] ∧ fixedAssetsList (-1) = [] ∧ envSensorsList (-1) = [] ∧
    personnelList (-1) = [] :=
  claim_C4 (-1) (by decide)

/-- C6: every registry-produced device id resolves, via `get_device_type`,
to the category whose subtype token it was built from; in particular the
resolution is total on `all_devices` (never `none`). -/
theorem claim_C6 (cfg : Config) :
    (∀ id ∈ vehiclesList cfg.num_vehicles, get_device_type id = some .vehicle) ∧
    (∀ id ∈ fixedAssetsList cfg.num_fixed_assets, get_device_type id = some .fixed) ∧
    (∀ id ∈ envSensorsList cfg.num_env_sensors, get_device_type id = some .env) ∧
    (∀ id ∈ personnelList cfg.num_personnel, get_device_type id = some .personnel) ∧
    (∀ id ∈ allDevices cfg, ∃ t, get_device_type id = some t) := by
  refine ⟨fun _ h => gdt_of_mem_vehicles h, fun _ h => gdt_of_mem_fixed h,
    fun _ h => gdt_of_mem_env h, fun _ h => gdt_of_mem_personnel h, fun id h => ?_⟩
  unfold allDevices at h
  rcases List.mem_append.mp h with h | h
  · rcases List.mem_append.mp h with h | h
    · rcases List.mem_append.mp h with h | h
      · exact ⟨_, gdt_of_mem_vehicles h⟩
      · exact ⟨_, gdt_of_mem_fixed h⟩
    · exact ⟨_, gdt_of_mem_env h⟩
  · exact ⟨_, gdt_of_mem_personnel h⟩

/-- Witness for C6 at the default configuration and one concrete id per
category. -/
theorem claim_C6_witness :
    get_device_type ("haul_truck_000".toList) = some .vehicle ∧
    get_device_type ("vent_system_002".toList) = some .fixed ∧
    get_device_type ("env_methane_001".toList) = some .env ∧
    get_device_type ("personnel_014".toList) = some .personnel :=
  ⟨(claim_C6 defaultConfig).1 _ (by decide),
   (claim_C6 defaultConfig).2.1 _ (by decide),
   (claim_C6 defaultConfig).2.2.1 _ (by decide),
   (claim_C6 defaultConfig).2.2.2.1 _ (by decide)⟩

/-- Counterexample to C7 as stated: on an id with no matching category
token, `get_device_type` does not fail — the Python function falls off the
end and returns `None`, a normal return value. -/
theorem claim_C7_counterexample :
    get_device_type ("mystery_123".toList) = none := by decide

/-- C7 amended: for every id in which no category token occurs,
`get_device_type` returns `None` (Python's implicit return, an absent
value); it raises no `UnknownDeviceType` error — no such error path exists
in the source. -/
theorem claim_C7 (id : List Char)
    (h : ∀ pat ∈ ["truck", "loader", "excavator", "fan", "vent", "conveyor", "env",
      "personnel"], ¬ (String.toList pat <:+: id)) :
    get_device_type id = none := by
  unfold get_device_type
  rw [if_neg, if_neg, if_neg, if_neg]
  · exact h "personnel" (by simp)
  · exact h "env" (by simp)
  · rintro (hc | hc | hc)
    · exact h "fan" (by simp) hc
    · exact h "vent" (by simp) hc
    · exact h "conveyor" (by simp) hc
  · rintro (hc | hc | hc)
    · exact h "truck" (by simp) hc
    · exact h "loader" (by simp) hc
    · exact h "excavator" (by simp) hc

/-- Witness for C7 (amended) at the concrete id `"robot_007"`. -/
theorem claim_C7_witness : get_device_type ("robot_007".toList) = none :=
  claim_C7 ("robot_007".toList) (by decide)

theorem deviceId_injective (t : String) : Function.Injective (deviceId t) := by
  intro i j h
  unfold deviceId at h
  have h2 := List.append_cancel_left h
  exact padIndex_injective (by injection h2)

theorem deviceId_ne_of_get (pos : Nat) {t1 t2 : String}
    (h1 : pos < t1.toList.length) (h2 : pos < t2.toList.length)
    (hne : t1.toList[pos]? ≠ t2.toList[pos]?) (i j : Nat) :
    deviceId t1 i ≠ deviceId t2 j := by
  intro h
  apply hne
  have e1 : (deviceId t1 i)[pos]? = t1.toList[pos]? := List.getElem?_append_left h1
  have e2 : (deviceId t2 j)[pos]? = t2.toList[pos]? := List.getElem?_append_left h2
  rw [← e1, ← e2, h]

theorem fdiv_natCast_succ_toNat (n d : Nat) :
    (((n : Int)).fdiv (d : Int) + 1).toNat = n / d + 1 := by
  rw [← Int.ofNat_fdiv, ← Nat.cast_one, ← Nat.cast_add, Int.toNat_natCast]

theorem mkCategory_natCast (tokens : List String) (d n : Nat) :
    mkCategory tokens (d : Int) (n : Int) =
      (tokens.flatMap fun t => (List.range (n / d + 1)).map (deviceId t)).take n := by
  unfold mkCategory pySlice
  rw [fdiv_natCast_succ_toNat, if_pos (by omega : (0 : Int) ≤ (n : Int)), Int.toNat_natCast]

theorem length_mkCategory (tokens : List String) (d n : Nat)
    (hd : tokens.length = d) (hd0 : 0 < d) :
    (mkCategory tokens (d : Int) (n : Int)).length = n := by
  rw [mkCategory_natCast, List.length_take, List.length_flatMap]
  have hmap : ∀ ts : List String,
      (List.map (List.length ∘ fun t => (List.range (n / d + 1)).map (deviceId t)) ts) =
        List.replicate ts.length (n / d + 1) := by
    intro ts
    induction ts with
    | nil => rfl
    | cons t ts ih => simp [List.replicate_succ, ih, Function.comp]
  rw [hmap, List.sum_replicate, smul_eq_mul, hd, Nat.mul_succ]
  have hdm := Nat.div_add_mod n d
  have hmlt := Nat.mod_lt n hd0
  omega

theorem nodup_mkCategory {tokens : List String} {d c : Int}
    (hdisj : List.Pairwise (fun t1 t2 => ∀ i j, deviceId t1 i ≠ deviceId t2 j) tokens) :
    (mkCategory tokens d c).Nodup := by
  have hn : (tokens.flatMap fun t =>
      (List.range (c.fdiv d + 1).toNat).map (deviceId t)).Nodup := by
    rw [List.nodup_flatMap]
    constructor
    · intro t _
      exact List.Nodup.map (deviceId_injective t) (List.nodup_range _)
    · refine hdisj.imp ?_
      intro t1 t2 h a ha1 ha2
      obtain ⟨i, _, rfl⟩ := List.mem_map.mp ha1
      obtain ⟨j, _, hj⟩ := List.mem_map.mp ha2
      exact h i j hj.symm
  unfold mkCategory pySlice
  split <;> exact (List.take_sublist _ _).nodup hn

theorem mem_mkCategory_natCast {id : List Char} {tokens : List String} {d n : Nat}
    (h : id ∈ mkCategory tokens (d : Int) (n : Int)) :
    ∃ t ∈ tokens, ∃ i < n / d + 1, id = deviceId t i := by
  rw [mkCategory_natCast] at h
  have h' := List.mem_of_mem_take h
  obtain ⟨t, ht, h''⟩ := List.mem_flatMap.mp h'
  obtain ⟨i, hi, heq⟩ := List.mem_map.mp h''
  exact ⟨t, ht, i, List.mem_range.mp hi, heq.symm⟩

theorem vehicle_tokens_pairwise :
    List.Pairwise (fun t1 t2 => ∀ i j, deviceId t1 i ≠ deviceId t2 j)
      (["haul_truck", "loader", "excavator"] : List String) := by
  refine List.Pairwise.cons ?_ (List.Pairwise.cons ?_ (List.pairwise_singleton _ _))
  · intro t ht
    fin_cases ht
    · exact deviceId_ne_of_get 0 (by decide) (by decide) (by decide)
    · exact deviceId_ne_of_get 0 (by decide) (by decide) (by decide)
  · intro t ht
    fin_cases ht
    exact deviceId_ne_of_get 0 (by decide) (by decide) (by decide)

theorem fixed_tokens_pairwise :
    List.Pairwise (fun t1 t2 => ∀ i j, deviceId t1 i ≠ deviceId t2 j)
      (["fan", "vent_system", "conveyor"] : List String) := by
  refine List.Pairwise.cons ?_ (List.Pairwise.cons ?_ (List.pairwise_singleton _ _))
  · intro t ht
    fin_cases ht
    · exact deviceId_ne_of_get 0 (by decide) (by decide) (by decide)
    · exact deviceId_ne_of_get 0 (by decide) (by decide) (by decide)
  · intro t ht
    fin_cases ht
    exact deviceId_ne_of_get 0 (by decide) (by decide) (by decide)

theorem env_tokens_pairwise :
    List.Pairwise (fun t1 t2 => ∀ i j, deviceId t1 i ≠ deviceId t2 j)
      (["env_co_co2", "env_methane", "env_dust", "env_temp_hum", "env_ground_stab"] :
        List String) := by
  refine List.Pairwise.cons ?_ (List.Pairwise.cons ?_ (List.Pairwise.cons ?_
    (List.Pairwise.cons ?_ (List.pairwise_singleton _ _)))) <;>
  · intro t ht
    fin_cases ht <;> exact deviceId_ne_of_get 4 (by decide) (by decide) (by decide)

/-- Counterexample to C2 as stated: at `num_vehicles = 3` the source's block
allocation (`n // 3 + 1` indices per token, then truncation) gives a
2, 1, 0 split over the three vehicle subtypes — the per-subtype counts
differ by 2, not by at most 1 as a round-robin would give. -/
theorem claim_C2_counterexample :
    (vehiclesList 3).length = 3 ∧
    (vehiclesList 3).countP (fun id => decide (id.take 10 = "haul_truck".toList)) = 2 ∧
    (vehiclesList 3).countP (fun id => decide (id.take 9 = "excavator".toList)) = 0 := by
  decide

/-- C2 amended: for every non-negative configured count per category,
device generation yields exactly that many unique ids, each a fixed subtype
token rendered at a zero-based index below `count / k + 1`; the indices are
allocated in contiguous blocks per token (not round-robined), so the
per-subtype counts can differ by more than one, although the claim's
`num_vehicles = 5` example does give the 2, 2, 1 split. -/
theorem claim_C2 (n : Nat) :
    ((vehiclesList (n : Int)).length = n ∧ (vehiclesList (n : Int)).Nodup ∧
      ∀ id ∈ vehiclesList (n : Int),
        ∃ t ∈ (["haul_truck", "loader", "excavator"] : List String),
          ∃ i < n / 3 + 1, id = deviceId t i) ∧
    ((fixedAssetsList (n : Int)).length = n ∧ (fixedAssetsList (n : Int)).Nodup ∧
      ∀ id ∈ fixedAssetsList (n : Int),
        ∃ t ∈ (["fan", "vent_system", "conveyor"] : List String),
          ∃ i < n / 3 + 1, id = deviceId t i) ∧
    ((envSensorsList (n : Int)).length = n ∧ (envSensorsList (n : Int)).Nodup ∧
      ∀ id ∈ envSensorsList (n : Int),
        ∃ t ∈ (["env_co_co2", "env_methane", "env_dust", "env_temp_hum",
            "env_ground_stab"] : List String),
          ∃ i < n / 5 + 1, id = deviceId t i) ∧
    ((personnelList (n : Int)).length = n ∧ (personnelList (n : Int)).Nodup ∧
      ∀ id ∈ personnelList (n : Int), ∃ i < n, id = deviceId "personnel" i) ∧
    ((vehiclesList 5).countP (fun id => decide (id.take 10 = "haul_truck".toList)) = 2 ∧
      (vehiclesList 5).countP (fun id => decide (id.take 6 = "loader".toList)) = 2 ∧
      (vehiclesList 5).countP (fun id => decide (id.take 9 = "excavator".toList)) = 1) := by
  refine ⟨⟨length_mkCategory _ 3 n rfl (by omega), nodup_mkCategory vehicle_tokens_pairwise,
      fun id h => mem_mkCategory_natCast h⟩,
    ⟨length_mkCategory _ 3 n rfl (by omega), nodup_mkCategory fixed_tokens_pairwise,
      fun id h => mem_mkCategory_natCast h⟩,
    ⟨length_mkCategory _ 5 n rfl (by omega), nodup_mkCategory env_tokens_pairwise,
      fun id h => mem_mkCategory_natCast h⟩,
    ⟨?_, ?_, ?_⟩, by decide, by decide, by decide⟩
  · unfold personnelList
    rw [Int.toNat_natCast, List.length_map, List.length_range]
  · exact List.Nodup.map (deviceId_injective _) (List.nodup_range _)
  · intro id h
    unfold personnelList at h
    rw [Int.toNat_natCast] at h
    obtain ⟨i, hi, heq⟩ := List.mem_map.mp h
    exact ⟨i, List.mem_range.mp hi, heq.symm⟩

/-- Witness for C2 (amended) at `n = 5`, including a concrete membership
instance. -/
theorem claim_C2_witness :
    (vehiclesList (5 : Nat)).length = 5 ∧
    ∃ t ∈ (["haul_truck", "loader", "excavator"] : List String),
      ∃ i < 5 / 3 + 1, "loader_001".toList = deviceId t i :=
  ⟨(claim_C2 5).1.1, (claim_C2 5).1.2.2 ("loader_001".toList) (by decide)⟩

theorem publish_run_invariant (mode : String) (inputs : List (α × ℚ)) :
    (publish_run mode inputs).buffer = [] ∧
    (publish_run mode inputs).published = (publish_run mode inputs).generated := by
  suffices h : ∀ st : LoopState α, st.buffer = [] → st.published = st.generated →
      (inputs.foldl (publish_step mode) st).buffer = [] ∧
      (inputs.foldl (publish_step mode) st).published =
        (inputs.foldl (publish_step mode) st).generated from h initLoop rfl rfl
  induction inputs with
  | nil => intro st h1 h2; exact ⟨h1, h2⟩
  | cons inp rest ih =>
    intro st h1 h2
    apply ih
    · unfold publish_step
      split <;> simp [h1]
    · unfold publish_step
      split <;> simp [h1, h2]

/-- C8: in every run of the delivery loop (any mode, any outage draws), the
outage buffer is empty at the start of every iteration — in particular
immediately after every flush — and the full sequence of records handed to
`client.publish` equals the full sequence of generated records in
generation order (FIFO: buffered records are flushed in exactly the order
they were generated). -/
theorem claim_C8 (α : Type) (mode : String) (inputs : List (α × ℚ)) :
    (publish_run mode inputs).buffer = [] ∧
    (publish_run mode inputs).published = (publish_run mode inputs).generated :=
  publish_run_invariant mode inputs

/-- C10: the per-device outage buffer never holds more than one record.  At
the start of every iteration the buffer is empty; when an outage fires
(`u < 0.3` in intermittent mode) the buffer during the outage is exactly
the one record generated this tick, the flush publishes exactly that list,
and the buffer is `[]` again at the end of the iteration. -/
theorem claim_C10 (α : Type) (inputs : List (α × ℚ)) (r : α) (u : ℚ) :
    (publish_run "intermittent" inputs).buffer = [] ∧
    (u < 0.3 →
      ((publish_run "intermittent" inputs).buffer ++ [r]).length = 1 ∧
      (publish_run "intermittent" inputs).buffer ++ [r] = [r] ∧
      publish_step "intermittent" (publish_run "intermittent" inputs) (r, u) =
        { buffer := [],
          published := (publish_run "intermittent" inputs).published ++
            ((publish_run "intermittent" inputs).buffer ++ [r]),
          generated := (publish_run "intermittent" inputs).generated ++ [r] }) := by
  have hbuf := (publish_run_invariant "intermittent" inputs).1
  refine ⟨hbuf, fun hu => ⟨?_, ?_, ?_⟩⟩
  · rw [hbuf]
    rfl
  · rw [hbuf]
    rfl
  · unfold publish_step
    rw [if_pos ⟨rfl, hu⟩]

/-- Witness for C10 at the empty history and a concrete outage draw `0`. -/
theorem claim_C10_witness :
    ((publish_run "intermittent" ([] : List (Nat × ℚ))).buffer ++ [7]).length = 1 ∧
    (publish_run "intermittent" ([] : List (Nat × ℚ))).buffer ++ [7] = [7] ∧
    publish_step "intermittent" (publish_run "intermittent" ([] : List (Nat × ℚ))) (7, 0) =
      { buffer := [],
        published := (publish_run "intermittent" ([] : List (Nat × ℚ))).published ++
          ((publish_run "intermittent" ([] : List (Nat × ℚ))).buffer ++ [7]),
        generated := (publish_run "intermittent" ([] : List (Nat × ℚ))).generated ++ [7] } :=
  (claim_C10 Nat [] 7 0).2 (by norm_num)

theorem pyUniform_bounds {lo hi u : ℚ} (h0 : 0 ≤ u) (h1 : u < 1) (hlh : lo ≤ hi) :
    lo ≤ pyUniform lo hi u ∧ pyUniform lo hi u ≤ hi := by
  unfold pyUniform
  constructor <;> nlinarith

theorem pyUniform_zero_var (u : ℚ) : pyUniform (-0 : ℚ) 0 u = 0 := by
  simp [pyUniform]

theorem evalScalar_zero_var (s : Nat → ℚ) (lo hi : ℚ) (k : Nat) :
    evalScalar 0 s lo hi k = (pyUniform lo hi (s k), k + 2) := by
  unfold evalScalar
  rw [pyUniform_zero_var]
  norm_num

theorem pyChoice_mem {l : List α} (d : α) {u : ℚ} (hne : l ≠ []) (h0 : 0 ≤ u)
    (h1 : u < 1) : pyChoice l d u ∈ l := by
  have hlen : 0 < l.length := List.length_pos.mpr hne
  have hmul : u * (l.length : ℚ) < (l.length : ℚ) := by
    have : (0 : ℚ) < (l.length : ℚ) := by exact_mod_cast hlen
    nlinarith
  have hfl : ⌊u * (l.length : ℚ)⌋ < (l.length : Int) := Int.floor_lt.mpr (by exact_mod_cast hmul)
  have hidx : (⌊u * (l.length : ℚ)⌋).toNat < l.length := by omega
  unfold pyChoice
  rw [List.getD_eq_getElem?_getD, List.getElem?_eq_getElem hidx]
  exact List.getElem_mem hidx

theorem evalGroup_conforms {s : Nat → ℚ} (hs : ∀ i, 0 ≤ s i ∧ s i < 1) :
    ∀ (fs : List (String × ℚ × ℚ)) (k : Nat), (∀ f ∈ fs, f.2.1 ≤ f.2.2) →
      ∀ p ∈ (evalGroup 0 s fs k).1, ∃ lo hi, (p.1, lo, hi) ∈ fs ∧ lo ≤ p.2 ∧ p.2 ≤ hi := by
  intro fs
  induction fs with
  | nil => intro k _ p hp; simp [evalGroup] at hp
  | cons f fs ih =>
    intro k hwf p hp
    obtain ⟨nm, lo, hi⟩ := f
    rw [evalGroup, evalScalar_zero_var] at hp
    rcases List.mem_cons.mp hp with rfl | hp
    · obtain ⟨hl, hr⟩ := pyUniform_bounds (hs k).1 (hs k).2
        (hwf (nm, lo, hi) (List.mem_cons_self _ _))
      exact ⟨lo, hi, List.mem_cons_self _ _, hl, hr⟩
    · obtain ⟨lo', hi', hmem, hbound⟩ :=
        ih (k + 2) (fun g hg => hwf g (List.mem_cons_of_mem _ hg)) p hp
      exact ⟨lo', hi', List.mem_cons_of_mem _ hmem, hbound⟩

theorem evalMetrics_conforms {s : Nat → ℚ} (hs : ∀ i, 0 ≤ s i ∧ s i < 1) :
    ∀ (rules : List (String × Rule)) (k : Nat), (∀ p ∈ rules, RuleWF p.2) →
      ∀ p ∈ (evalMetrics 0 s rules k).1, ∃ r, (p.1, r) ∈ rules ∧ Conforms r p.2 := by
  intro rules
  induction rules with
  | nil => intro k _ p hp; simp [evalMetrics] at hp
  | cons entry rules ih =>
    intro k hwf p hp
    obtain ⟨nm, r⟩ := entry
    rw [evalMetrics] at hp
    rcases List.mem_cons.mp hp with rfl | hp
    · refine ⟨r, List.mem_cons_self _ _, ?_⟩
      have hwfr : RuleWF r := hwf (nm, r) (List.mem_cons_self _ _)
      match r, hwfr with
      | .range lo hi, hwfr =>
        rw [evalRule, evalScalar_zero_var]
        exact pyUniform_bounds (hs k).1 (hs k).2 hwfr
      | .group fs, hwfr =>
        rw [evalRule]
        exact evalGroup_conforms hs fs k hwfr
      | .cat opts, hwfr =>
        rw [evalRule]
        exact pyChoice_mem "" hwfr (hs k).1 (hs k).2
      | .bools opts, hwfr =>
        rw [evalRule]
        exact pyChoice_mem false hwfr (hs k).1 (hs k).2
    · obtain ⟨r', hmem, hconf⟩ :=
        ih _ (fun g hg => hwf g (List.mem_cons_of_mem _ hg)) p hp
      exact ⟨r', List.mem_cons_of_mem _ hmem, hconf⟩

theorem metricRanges_wf (t : DeviceType) : ∀ p ∈ metricRanges t, RuleWF p.2 := by
  cases t <;> intro p hp <;>
    fin_cases hp <;>
    simp [RuleWF] <;>
    norm_num

/-- Evaluation of `simulate_data` when the type resolves and the mode is
not `"fault"`: no draw beyond the metric draws is consumed and the record
carries the raw metrics with status `"normal"`. -/
theorem simulate_data_not_fault {id : List Char} {t : DeviceType}
    (h : get_device_type id = some t) {mode : String} (hm : mode ≠ "fault")
    (variance : ℚ) (s : Nat → ℚ) (k : Nat) :
    simulate_data id mode variance s k =
      some ({ device_id := id, typ := t,
              metrics := (evalMetrics variance s (metricRanges t) k).1,
              status := "normal" },
        (evalMetrics variance s (metricRanges t) k).2) := by
  unfold simulate_data
  rw [h]
  simp [hm]

/-- Evaluation of `simulate_data` in fault mode when the per-record draw
fires (`< 0.2`). -/
theorem simulate_data_fault_hit {id : List Char} {t : DeviceType}
    (h : get_device_type id = some t) (variance : ℚ) (s : Nat → ℚ) (k : Nat)
    (hd : s (evalMetrics variance s (metricRanges t) k).2 < 0.2) :
    simulate_data id "fault" variance s k =
      some ({ device_id := id, typ := t,
              metrics := applyFault t (evalMetrics variance s (metricRanges t) k).1,
              status := faultStatus t },
        (evalMetrics variance s (metricRanges t) k).2 + 1) := by
  unfold simulate_data
  rw [h]
  simp [hd]

/-- Evaluation of `simulate_data` in fault mode when the per-record draw
does not fire (`≥ 0.2`): the record is the unmutated one, but the draw was
still consumed. -/
theorem simulate_data_fault_miss {id : List Char} {t : DeviceType}
    (h : get_device_type id = some t) (variance : ℚ) (s : Nat → ℚ) (k : Nat)
    (hd : ¬ s (evalMetrics variance s (metricRanges t) k).2 < 0.2) :
    simulate_data id "fault" variance s k =
      some ({ device_id := id, typ := t,
              metrics := (evalMetrics variance s (metricRanges t) k).1,
              status := "normal" },
        (evalMetrics variance s (metricRanges t) k).2 + 1) := by
  unfold simulate_data
  rw [h]
  simp [hd]

theorem gdt_of_mem_allDevices {cfg : Config} {id : List Char}
    (h : id ∈ allDevices cfg) : ∃ t, get_device_type id = some t := by
  unfold allDevices at h
  rcases List.mem_append.mp h with h | h
  · rcases List.mem_append.mp h with h | h
    · rcases List.mem_append.mp h with h | h
      · exact ⟨_, gdt_of_mem_vehicles h⟩
      · exact ⟨_, gdt_of_mem_fixed h⟩
    · exact ⟨_, gdt_of_mem_env h⟩
  · exact ⟨_, gdt_of_mem_personnel h⟩

/-- Counterexample to C3 as stated ("for every generated record"): with
variance 0 and in-range unit draws, a fault-mode record for a fixed asset
carries `operational_status = "jammed"`, which is not a member of the
declared option set `["running", "idle", "stopped"]` (and its status is not
`"normal"`). -/
theorem claim_C3_counterexample :
    (simulate_data ("fan_000".toList) "fault" 0 (fun _ => 0) 0).map
      (fun p => (p.1.status, getVal p.1.metrics "operational_status")) =
      some ("fault_jam", some (.str "jammed")) ∧
    ("jammed" ∉ ["running", "idle", "stopped"]) := by
  have h : get_device_type ['f', 'a', 'n', '_', '0', '0', '0'] = some .fixed := by decide
  refine ⟨?_, by decide⟩
  norm_num [simulate_data, h, evalMetrics, evalRule, evalScalar,
    evalGroup, pyUniform, pyChoice, metricRanges, fixedMetrics, applyFault,
    setVal, getVal, faultStatus]
  decide

/-- C3 amended: the sample generator applies the multiplicative jitter
`1 + U(-variance, variance)` to every numeric draw (one independent jitter
per scalar and per nested sub-field) and to no categorical or boolean draw;
and when `variance = 0` and `mode == Normal` (the claim restricted to
non-fault records, as the fault mutation can leave the declared sets),
every scalar and nested value of every generated record lies within its
declared `[low, high]` range and every categorical or boolean value is a
member of its declared option set, for unit draws in `[0, 1)`. -/
theorem claim_C3 (cfg : Config) :
    (∀ id ∈ allDevices cfg, ∀ s : Nat → ℚ, (∀ i, 0 ≤ s i ∧ s i < 1) → ∀ k : Nat,
      ∃ t, get_device_type id = some t ∧
        simulate_data id "normal" 0 s k =
          some ({ device_id := id, typ := t,
                  metrics := (evalMetrics 0 s (metricRanges t) k).1,
                  status := "normal" },
            (evalMetrics 0 s (metricRanges t) k).2) ∧
        ∀ p ∈ (evalMetrics 0 s (metricRanges t) k).1,
          ∃ r, (p.1, r) ∈ metricRanges t ∧ Conforms r p.2) ∧
    (∀ variance : ℚ, ∀ s : Nat → ℚ, ∀ lo hi : ℚ, ∀ k : Nat,
      evalRule variance s (.range lo hi) k =
        (.num (pyUniform lo hi (s k) * (1 + pyUniform (-variance) variance (s (k + 1)))),
          k + 2)) ∧
    (∀ variance : ℚ, ∀ s : Nat → ℚ, ∀ nm : String, ∀ lo hi : ℚ,
      ∀ fs : List (String × ℚ × ℚ), ∀ k : Nat,
      evalGroup variance s ((nm, lo, hi) :: fs) k =
        ((nm, pyUniform lo hi (s k) * (1 + pyUniform (-variance) variance (s (k + 1)))) ::
          (evalGroup variance s fs (k + 2)).1, (evalGroup variance s fs (k + 2)).2)) ∧
    (∀ variance : ℚ, ∀ s : Nat → ℚ, ∀ opts : List String, ∀ k : Nat,
      evalRule variance s (.cat opts) k = (.str (pyChoice opts "" (s k)), k + 1)) ∧
    (∀ variance : ℚ, ∀ s : Nat → ℚ, ∀ opts : List Bool, ∀ k : Nat,
      evalRule variance s (.bools opts) k = (.bool (pyChoice opts false (s k)), k + 1)) := by
  refine ⟨fun id hmem s hs k => ?_, fun _ _ _ _ _ => rfl, fun _ _ _ _ _ _ _ => rfl,
    fun _ _ _ _ => rfl, fun _ _ _ _ => rfl⟩
  obtain ⟨t, ht⟩ := gdt_of_mem_allDevices hmem
  exact ⟨t, ht, simulate_data_not_fault ht (by decide) 0 s k,
    evalMetrics_conforms hs (metricRanges t) k (metricRanges_wf t)⟩

/-- Witness for C3 (amended) at the default configuration, the id
`"haul_truck_000"`, the constant-zero draw stream and `k = 0`. -/
theorem claim_C3_witness :
    ∃ t, get_device_type ("haul_truck_000".toList) = some t ∧
      simulate_data ("haul_truck_000".toList) "normal" 0 (fun _ => 0) 0 =
        some ({ device_id := "haul_truck_000".toList, typ := t,
                metrics := (evalMetrics 0 (fun _ => 0) (metricRanges t) 0).1,
                status := "normal" },
          (evalMetrics 0 (fun _ => 0) (metricRanges t) 0).2) ∧
      ∀ p ∈ (evalMetrics 0 (fun _ => 0) (metricRanges t) 0).1,
        ∃ r, (p.1, r) ∈ metricRanges t ∧ Conforms r p.2 :=
  (claim_C3 defaultConfig).1 ("haul_truck_000".toList) (by decide)
    (fun _ => 0) (fun i => by norm_num) 0

theorem getVal_cons (n : String) (w : MValue) (rest : List (String × MValue))
    (key : String) :
    getVal ((n, w) :: rest) key = if n = key then some w else getVal rest key := rfl

theorem getVal_bumpNum_self (m : List (String × MValue)) (key : String) (d : ℚ) :
    getVal (bumpNum m key d) key = (getVal m key).map (fun v => addNum v d) := by
  induction m with
  | nil => rfl
  | cons p m ih =>
    obtain ⟨n, w⟩ := p
    by_cases h : n = key
    · simp [bumpNum, getVal_cons, h]
    · simp only [bumpNum, List.map_cons] at ih ⊢
      simp [getVal_cons, h, ih]

theorem getVal_bumpNum_other (m : List (String × MValue)) (key : String) (d : ℚ)
    {key' : String} (h : key' ≠ key) :
    getVal (bumpNum m key d) key' = getVal m key' := by
  induction m with
  | nil => rfl
  | cons p m ih =>
    obtain ⟨n, w⟩ := p
    simp only [bumpNum, List.map_cons] at ih ⊢
    by_cases hp : n = key
    · have hp' : n ≠ key' := by rw [hp]; exact fun he => h he.symm
      simp [getVal_cons, hp, hp', Ne.symm h, ih]
    · by_cases hp' : n = key'
      · simp [getVal_cons, hp, hp', h]
      · simp [getVal_cons, hp, hp', ih]

theorem getVal_map_set (m : List (String × MValue)) (key : String) (v : MValue) :
    getVal (m.map fun p => if p.1 = key then (p.1, v) else p) key =
      if (m.any fun p => p.1 = key) then some v else none := by
  induction m with
  | nil => rfl
  | cons p m ih =>
    obtain ⟨n, w⟩ := p
    by_cases h : n = key
    · simp [getVal_cons, h]
    · simp only [List.map_cons, if_neg h, getVal_cons, List.any_cons]
      simp only [ih, decide_eq_false h, Bool.false_or]

theorem getVal_append_none (m1 m2 : List (String × MValue)) (key : String)
    (h : getVal m1 key = none) : getVal (m1 ++ m2) key = getVal m2 key := by
  induction m1 with
  | nil => rfl
  | cons p m1 ih =>
    obtain ⟨n, w⟩ := p
    rw [getVal_cons] at h
    by_cases hp : n = key
    · simp [hp] at h
    · rw [if_neg hp] at h
      rw [List.cons_append, getVal_cons, if_neg hp]
      exact ih h

theorem getVal_none_of_not_any (m : List (String × MValue)) (key : String)
    (h : ¬ (m.any fun p => p.1 = key) = true) : getVal m key = none := by
  induction m with
  | nil => rfl
  | cons p m ih =>
    obtain ⟨n, w⟩ := p
    simp only [List.any_cons, Bool.or_eq_true, decide_eq_true_eq, not_or] at h
    rw [getVal_cons, if_neg h.1]
    exact ih (by simpa using h.2)

theorem getVal_setVal_self (m : List (String × MValue)) (key : String) (v : MValue) :
    getVal (setVal m key v) key = some v := by
  unfold setVal
  by_cases h : (m.any fun p => p.1 = key) = true
  · rw [if_pos h, getVal_map_set, if_pos h]
  · rw [if_neg h, getVal_append_none _ _ _ (getVal_none_of_not_any m key h), getVal_cons,
      if_pos rfl]

theorem getVal_map_set_other (m : List (String × MValue)) (key : String) (v : MValue)
    {key' : String} (h : key' ≠ key) :
    getVal (m.map fun p => if p.1 = key then (p.1, v) else p) key' = getVal m key' := by
  induction m with
  | nil => rfl
  | cons p m ih =>
    obtain ⟨n, w⟩ := p
    by_cases hp : n = key
    · have hp' : n ≠ key' := by rw [hp]; exact fun he => h he.symm
      simp [getVal_cons, hp, hp', Ne.symm h, ih]
    · by_cases hp' : n = key'
      · simp [getVal_cons, hp, hp', h]
      · simp [getVal_cons, hp, hp', ih]

theorem getVal_append_single_other (m : List (String × MValue)) (key : String)
    (v : MValue) {key' : String} (h : key' ≠ key) :
    getVal (m ++ [(key, v)]) key' = getVal m key' := by
  induction m with
  | nil => simp [getVal_cons, getVal, Ne.symm h]
  | cons p m ih =>
    obtain ⟨n, w⟩ := p
    rw [List.cons_append, getVal_cons, getVal_cons]
    by_cases hp : n = key'
    · rw [if_pos hp, if_pos hp]
    · rw [if_neg hp, if_neg hp]
      exact ih

theorem getVal_setVal_other (m : List (String × MValue)) (key : String) (v : MValue)
    {key' : String} (h : key' ≠ key) :
    getVal (setVal m key v) key' = getVal m key' := by
  unfold setVal
  split
  · exact getVal_map_set_other m key v h
  · exact getVal_append_single_other m key v h

theorem exists_num_getVal {key : String} {lo hi variance : ℚ} {s : Nat → ℚ} :
    ∀ (rules : List (String × Rule)) (k : Nat),
      lookupRule rules key = some (.range lo hi) →
      ∃ q, getVal (evalMetrics variance s rules k).1 key = some (.num q) := by
  intro rules
  induction rules with
  | nil => intro k h; simp [lookupRule] at h
  | cons entry rules ih =>
    intro k h
    obtain ⟨nm, r⟩ := entry
    unfold lookupRule at h
    rw [evalMetrics]
    by_cases hn : nm = key
    · rw [if_pos hn] at h
      have hr : r = .range lo hi := by injection h
      subst hr
      refine ⟨(evalScalar variance s lo hi k).1, ?_⟩
      simp [getVal_cons, hn, evalRule]
    · rw [if_neg hn] at h
      obtain ⟨q, hq⟩ := ih ((evalRule variance s r k).2) h
      exact ⟨q, by simp [getVal_cons, hn, hq]⟩

/-- C1: fault injection.  For every registry-produced device id: in fault
mode one extra per-record draw is consumed after the metric draws, and
exactly when it is `< 0.2` exactly one type-keyed mutation is applied —
vehicle: `engine_temp` increased by 50 with status `"fault_overheat"`;
fixed asset: `operational_status` set to `"jammed"` with status
`"fault_jam"`; environmental: `methane` increased by 10 with status
`"fault_gas"`; personnel: `fall_detection` set to `true` with status
`"fault_fall"` — all other metric entries unchanged.  When the draw does
not fire, and in every non-fault mode, no mutation occurs and the status is
`"normal"`. -/
theorem claim_C1 (cfg : Config) :
    (∀ id ∈ vehiclesList cfg.num_vehicles,
      ∀ (variance : ℚ) (s : Nat → ℚ) (k : Nat) (mode : String),
      (mode ≠ "fault" →
        simulate_data id mode variance s k =
          some ({ device_id := id, typ := .vehicle,
                  metrics := (evalMetrics variance s vehicleMetrics k).1,
                  status := "normal" }, (evalMetrics variance s vehicleMetrics k).2)) ∧
      (¬ s (evalMetrics variance s vehicleMetrics k).2 < 0.2 →
        simulate_data id "fault" variance s k =
          some ({ device_id := id, typ := .vehicle,
                  metrics := (evalMetrics variance s vehicleMetrics k).1,
                  status := "normal" },
            (evalMetrics variance s vehicleMetrics k).2 + 1)) ∧
      (s (evalMetrics variance s vehicleMetrics k).2 < 0.2 →
        ∃ rec, simulate_data id "fault" variance s k =
            some (rec, (evalMetrics variance s vehicleMetrics k).2 + 1) ∧
          rec.status = "fault_overheat" ∧
          (∃ q, getVal (evalMetrics variance s vehicleMetrics k).1 "engine_temp" =
              some (.num q) ∧
            getVal rec.metrics "engine_temp" = some (.num (q + 50))) ∧
          ∀ key, key ≠ "engine_temp" →
            getVal rec.metrics key =
              getVal (evalMetrics variance s vehicleMetrics k).1 key)) ∧
    (∀ id ∈ fixedAssetsList cfg.num_fixed_assets,
      ∀ (variance : ℚ) (s : Nat → ℚ) (k : Nat) (mode : String),
      (mode ≠ "fault" →
        simulate_data id mode variance s k =
          some ({ device_id := id, typ := .fixed,
                  metrics := (evalMetrics variance s fixedMetrics k).1,
                  status := "normal" }, (evalMetrics variance s fixedMetrics k).2)) ∧
      (¬ s (evalMetrics variance s fixedMetrics k).2 < 0.2 →
        simulate_data id "fault" variance s k =
          some ({ device_id := id, typ := .fixed,
                  metrics := (evalMetrics variance s fixedMetrics k).1,
                  status := "normal" },
            (evalMetrics variance s fixedMetrics k).2 + 1)) ∧
      (s (evalMetrics variance s fixedMetrics k).2 < 0.2 →
        ∃ rec, simulate_data id "fault" variance s k =
            some (rec, (evalMetrics variance s fixedMetrics k).2 + 1) ∧
          rec.status = "fault_jam" ∧
          getVal rec.metrics "operational_status" = some (.str "jammed") ∧
          ∀ key, key ≠ "operational_status" →
            getVal rec.metrics key =
              getVal (evalMetrics variance s fixedMetrics k).1 key)) ∧
    (∀ id ∈ envSensorsList cfg.num_env_sensors,
      ∀ (variance : ℚ) (s : Nat → ℚ) (k : Nat) (mode : String),
      (mode ≠ "fault" →
        simulate_data id mode variance s k =
          some ({ device_id := id, typ := .env,
                  metrics := (evalMetrics variance s envMetrics k).1,
                  status := "normal" }, (evalMetrics variance s envMetrics k).2)) ∧
      (¬ s (evalMetrics variance s envMetrics k).2 < 0.2 →
        simulate_data id "fault" variance s k =
          some ({ device_id := id, typ := .env,
                  metrics := (evalMetrics variance s envMetrics k).1,
                  status := "normal" },
            (evalMetrics variance s envMetrics k).2 + 1)) ∧
      (s (evalMetrics variance s envMetrics k).2 < 0.2 →
        ∃ rec, simulate_data id "fault" variance s k =
            some (rec, (evalMetrics variance s envMetrics k).2 + 1) ∧
          rec.status = "fault_gas" ∧
          (∃ q, getVal (evalMetrics variance s envMetrics k).1 "methane" =
              some (.num q) ∧
            getVal rec.metrics "methane" = some (.num (q + 10))) ∧
          ∀ key, key ≠ "methane" →
            getVal rec.metrics key =
              getVal (evalMetrics variance s envMetrics k).1 key)) ∧
    (∀ id ∈ personnelList cfg.num_personnel,
      ∀ (variance : ℚ) (s : Nat → ℚ) (k : Nat) (mode : String),
      (mode ≠ "fault" →
        simulate_data id mode variance s k =
          some ({ device_id := id, typ := .personnel,
                  metrics := (evalMetrics variance s personnelMetrics k).1,
                  status := "normal" }, (evalMetrics variance s personnelMetrics k).2)) ∧
      (¬ s (evalMetrics variance s personnelMetrics k).2 < 0.2 →
        simulate_data id "fault" variance s k =
          some ({ device_id := id, typ := .personnel,
                  metrics := (evalMetrics variance s personnelMetrics k).1,
                  status := "normal" },
            (evalMetrics variance s personnelMetrics k).2 + 1)) ∧
      (s (evalMetrics variance s personnelMetrics k).2 < 0.2 →
        ∃ rec, simulate_data id "fault" variance s k =
            some (rec, (evalMetrics variance s personnelMetrics k).2 + 1) ∧
          rec.status = "fault_fall" ∧
          getVal rec.metrics "fall_detection" = some (.bool true) ∧
          ∀ key, key ≠ "fall_detection" →
            getVal rec.metrics key =
              getVal (evalMetrics variance s personnelMetrics k).1 key)) := by
  refine ⟨fun id hmem variance s k mode => ?_, fun id hmem variance s k mode => ?_,
    fun id hmem variance s k mode => ?_, fun id hmem variance s k mode => ?_⟩
  · have ht := gdt_of_mem_vehicles hmem
    refine ⟨fun hm => simulate_data_not_fault ht hm variance s k,
      fun hd => simulate_data_fault_miss ht variance s k hd, fun hd => ?_⟩
    obtain ⟨q, hq⟩ :=
      exists_num_getVal vehicleMetrics k
        (show lookupRule vehicleMetrics "engine_temp" = some (.range 60 90) by rfl)
    refine ⟨_, simulate_data_fault_hit ht variance s k hd, rfl, ⟨q, hq, ?_⟩, ?_⟩
    · show getVal (bumpNum (evalMetrics variance s vehicleMetrics k).1 "engine_temp" 50)
        "engine_temp" = some (.num (q + 50))
      rw [getVal_bumpNum_self, hq]
      rfl
    · intro key hk
      exact getVal_bumpNum_other _ _ _ hk
  · have ht := gdt_of_mem_fixed hmem
    refine ⟨fun hm => simulate_data_not_fault ht hm variance s k,
      fun hd => simulate_data_fault_miss ht variance s k hd, fun hd => ?_⟩
    refine ⟨_, simulate_data_fault_hit ht variance s k hd, rfl, ?_, ?_⟩
    · show getVal (setVal (evalMetrics variance s fixedMetrics k).1 "operational_status"
        (.str "jammed")) "operational_status" = some (.str "jammed")
      exact getVal_setVal_self _ _ _
    · intro key hk
      show getVal (setVal (evalMetrics variance s fixedMetrics k).1 "operational_status"
        (.str "jammed")) key = getVal (evalMetrics variance s fixedMetrics k).1 key
      exact getVal_setVal_other _ _ _ hk
  · have ht := gdt_of_mem_env hmem
    refine ⟨fun hm => simulate_data_not_fault ht hm variance s k,
      fun hd => simulate_data_fault_miss ht variance s k hd, fun hd => ?_⟩
    obtain ⟨q, hq⟩ :=
      exists_num_getVal envMetrics k
        (show lookupRule envMetrics "methane" = some (.range 0 5) by rfl)
    refine ⟨_, simulate_data_fault_hit ht variance s k hd, rfl, ⟨q, hq, ?_⟩, ?_⟩
    · show getVal (bumpNum (evalMetrics variance s envMetrics k).1 "methane" 10)
        "methane" = some (.num (q + 10))
      rw [getVal_bumpNum_self, hq]
      rfl
    · intro key hk
      exact getVal_bumpNum_other _ _ _ hk
  · have ht := gdt_of_mem_personnel hmem
    refine ⟨fun hm => simulate_data_not_fault ht hm variance s k,
      fun hd => simulate_data_fault_miss ht variance s k hd, fun hd => ?_⟩
    refine ⟨_, simulate_data_fault_hit ht variance s k hd, rfl, ?_, ?_⟩
    · show getVal (setVal (evalMetrics variance s personnelMetrics k).1 "fall_detection"
        (.bool true)) "fall_detection" = some (.bool true)
      exact getVal_setVal_self _ _ _
    · intro key hk
      show getVal (setVal (evalMetrics variance s personnelMetrics k).1 "fall_detection"
        (.bool true)) key = getVal (evalMetrics variance s personnelMetrics k).1 key
      exact getVal_setVal_other _ _ _ hk

/-- Witness for C1 at the default configuration, the ids
`"haul_truck_000"` and `"fan_000"`, the constant-zero draw stream (whose
fault draw `0 < 0.2` fires) and the constant-half stream (whose fault draw
does not fire). -/
theorem claim_C1_witness :
    (simulate_data ("haul_truck_000".toList) "normal" 0 (fun _ => 0) 0 =
      some ({ device_id := "haul_truck_000".toList, typ := .vehicle,
              metrics := (evalMetrics 0 (fun _ => 0) vehicleMetrics 0).1,
              status := "normal" }, (evalMetrics 0 (fun _ => 0) vehicleMetrics 0).2)) ∧
    (simulate_data ("fan_000".toList) "fault" 0 (fun _ => 1/2) 0 =
      some ({ device_id := "fan_000".toList, typ := .fixed,
              metrics := (evalMetrics 0 (fun _ => 1/2) fixedMetrics 0).1,
              status := "normal" }, (evalMetrics 0 (fun _ => 1/2) fixedMetrics 0).2 + 1)) ∧
    (∃ rec, simulate_data ("fan_000".toList) "fault" 0 (fun _ => 0) 0 =
        some (rec, (evalMetrics 0 (fun _ => 0) fixedMetrics 0).2 + 1) ∧
      rec.status = "fault_jam" ∧
      getVal rec.metrics "operational_status" = some (.str "jammed") ∧
      ∀ key, key ≠ "operational_status" →
        getVal rec.metrics key = getVal (evalMetrics 0 (fun _ => 0) fixedMetrics 0).1 key) :=
  ⟨((claim_C1 defaultConfig).1 ("haul_truck_000".toList) (by decide) 0 (fun _ => 0) 0
      "normal").1 (by decide),
   ((claim_C1 defaultConfig).2.1 ("fan_000".toList) (by decide) 0 (fun _ => 1/2) 0
      "fault").2.1 (by norm_num),
   ((claim_C1 defaultConfig).2.1 ("fan_000".toList) (by decide) 0 (fun _ => 0) 0
      "fault").2.2 (by norm_num)⟩

end Mining
